import Mathlib

/-!
Shallow embedding of the "memory" knowledge-continuity CLI's epistemic
scoring engine, verified against its natural-language design spec.

Modelling conventions:
* Go `float64` arithmetic is modelled over `ℝ` (exact real arithmetic).
* Wall-clock reads (`time.Now()`) become an explicit `now : ℝ` parameter
  (seconds, matching `UnixMilli()/1000`).
* The shell-out to `git hash-object` (an external oracle) becomes an explicit
  function parameter `gitHash : String → String`, returning `""` on failure,
  exactly the contract of the source's `getFileGitHash`.
* Go strings in the fuzzy matcher are modelled as `List Char` (the source
  operates on ASCII byte positions; on ASCII the two views agree).
-/

namespace Memory

/-! ## internal/models/breadcrumb.go -/

/-- Staleness tiers from `breadcrumb.go` (`StatusFresh`/`StatusAging`/`StatusStale`). -/
inductive StalenessStatus where
  | fresh
  | aging
  | stale
  deriving DecidableEq, Repr

/-- `DecayHalfLifeDays = 14.0`: days for confidence to halve. -/
def DecayHalfLifeDays : ℝ := 14.0

/-- `FileChangeConfidenceMultiplier = 0.5`: penalty when the referenced file changed. -/
def FileChangeConfidenceMultiplier : ℝ := 0.5

/-- `Finding` struct from `breadcrumb.go` (timestamps are seconds as `float64`). -/
structure Finding where
  id : String
  projectID : String
  sessionID : String
  goalID : Option String
  subtaskID : Option String
  finding : String
  createdTimestamp : ℝ
  subject : Option String
  impact : ℝ
  lastVerifiedTimestamp : Option ℝ
  subjectGitHash : Option String

/-- The base timestamp used by `CalculateConfidence`: last verified if present,
else created (lines 54-57 of `breadcrumb.go`). -/
def Finding.baseTime (f : Finding) : ℝ :=
  match f.lastVerifiedTimestamp with
  | some t => t
  | none => f.createdTimestamp

/-- `Finding.CalculateConfidence`: exponential decay
`exp(-(ln 2 / 14) * daysSince)` where `daysSince = (now - baseTime)/86400`.
The source reads `now` from the wall clock; here it is a parameter. -/
noncomputable def Finding.CalculateConfidence (f : Finding) (now : ℝ) : ℝ :=
  Real.exp (-(Real.log 2 / DecayHalfLifeDays) * ((now - f.baseTime) / (24 * 60 * 60)))

/-- The local `confidence` value inside `GetStalenessStatus` after the
file-change penalty has (possibly) been multiplied in (lines 73-78). -/
noncomputable def Finding.penalizedConfidence (f : Finding) (now : ℝ) (fileChanged : Bool) : ℝ :=
  let confidence := f.CalculateConfidence now
  if fileChanged then confidence * FileChangeConfidenceMultiplier else confidence

/-- `Finding.GetStalenessStatus`: thresholds `>= 0.70` fresh, `>= 0.40` aging,
else stale, applied to the penalized confidence (lines 80-85). -/
noncomputable def Finding.GetStalenessStatus (f : Finding) (now : ℝ) (fileChanged : Bool) :
    StalenessStatus :=
  let confidence := f.penalizedConfidence now fileChanged
  if confidence ≥ 0.70 then .fresh
  else if confidence ≥ 0.40 then .aging
  else .stale

/-- `Unknown` struct from `breadcrumb.go` (fields the engine reads). -/
structure Unknown where
  id : String
  projectID : String
  sessionID : String
  unknown : String
  isResolved : Bool
  resolvedBy : Option String
  createdTimestamp : ℝ
  resolvedTimestamp : Option ℝ
  impact : ℝ

/-- `DeadEnd` struct from `breadcrumb.go` (fields the engine reads). -/
structure DeadEnd where
  id : String
  projectID : String
  sessionID : String
  approach : String
  whyFailed : String
  createdTimestamp : ℝ
  impact : ℝ

/-! ## internal/models/project.go : the 13-dimension vector model -/

/-- `EpistemicVectors`: the 13-dimensional epistemic snapshot. -/
structure EpistemicVectors where
  engagement : ℝ
  know : ℝ
  doV : ℝ
  context : ℝ
  clarity : ℝ
  coherence : ℝ
  signal : ℝ
  density : ℝ
  state : ℝ
  change : ℝ
  completion : ℝ
  impact : ℝ
  uncertainty : ℝ

/-- `EngagementThreshold = 0.60`. -/
def EngagementThreshold : ℝ := 0.60

/-- `ConfidenceLow = 0.50`. -/
def ConfidenceLow : ℝ := 0.50

/-- `UncertaintyModerate = 0.50`. -/
def UncertaintyModerate : ℝ := 0.50

/-- `CanonicalWeights["foundation"]`. -/
def foundationWeight : ℝ := 0.35

/-- `CanonicalWeights["comprehension"]`. -/
def comprehensionWeight : ℝ := 0.25

/-- `CanonicalWeights["execution"]`. -/
def executionWeight : ℝ := 0.25

/-- `CanonicalWeights["engagement"]`. -/
def engagementWeight : ℝ := 0.15

/-- `CriticalThresholds["coherence_min"]`. -/
def coherenceMin : ℝ := 0.50

/-- `CriticalThresholds["density_max"]`. -/
def densityMax : ℝ := 0.90

/-- `FoundationScore = (know + do + context) / 3`. -/
noncomputable def EpistemicVectors.FoundationScore (v : EpistemicVectors) : ℝ :=
  (v.know + v.doV + v.context) / 3.0

/-- `ComprehensionScore = (clarity + coherence + signal + density) / 4`. -/
noncomputable def EpistemicVectors.ComprehensionScore (v : EpistemicVectors) : ℝ :=
  (v.clarity + v.coherence + v.signal + v.density) / 4.0

/-- `ExecutionScore = (state + change + completion + impact) / 4`. -/
noncomputable def EpistemicVectors.ExecutionScore (v : EpistemicVectors) : ℝ :=
  (v.state + v.change + v.completion + v.impact) / 4.0

/-- `OverallConfidence`: weighted sum minus uncertainty penalty, clamped to [0,1]
via `max(0, min(1, base - penalty))`. -/
noncomputable def EpistemicVectors.OverallConfidence (v : EpistemicVectors) : ℝ :=
  let foundation := v.FoundationScore * foundationWeight
  let comprehension := v.ComprehensionScore * comprehensionWeight
  let execution := v.ExecutionScore * executionWeight
  let engagement := v.engagement * engagementWeight
  let base := foundation + comprehension + execution + engagement
  let penalty := v.uncertainty * 0.15
  max 0 (min 1 (base - penalty))

/-- `PassesEngagementGate = engagement >= EngagementThreshold`. -/
def EpistemicVectors.PassesEngagementGate (v : EpistemicVectors) : Prop :=
  v.engagement ≥ EngagementThreshold

/-- `IsReadyToProceed = gate ∧ know >= ConfidenceLow ∧ uncertainty <= UncertaintyModerate`. -/
def EpistemicVectors.IsReadyToProceed (v : EpistemicVectors) : Prop :=
  v.PassesEngagementGate ∧ v.know ≥ ConfidenceLow ∧ v.uncertainty ≤ UncertaintyModerate

/-- `NeedsInvestigation = know < ConfidenceLow ∨ uncertainty > UncertaintyModerate`. -/
def EpistemicVectors.NeedsInvestigation (v : EpistemicVectors) : Prop :=
  v.know < ConfidenceLow ∨ v.uncertainty > UncertaintyModerate

noncomputable instance (v : EpistemicVectors) : Decidable v.PassesEngagementGate :=
  inferInstanceAs (Decidable (_ ≥ _))

noncomputable instance (v : EpistemicVectors) : Decidable v.NeedsInvestigation :=
  inferInstanceAs (Decidable (_ ∨ _))

/-- `Action` constants from `project.go`. -/
inductive Action where
  | proceed
  | investigate
  | clarify
  | reset
  | stop
  deriving DecidableEq, Repr

/-- `EpistemicVectors.RecommendedAction`: the strict priority chain
stop → reset → clarify → investigate → proceed (lines 424-442). -/
noncomputable def EpistemicVectors.RecommendedAction (v : EpistemicVectors) : Action :=
  if ¬ v.PassesEngagementGate then .stop
  else if v.coherence < coherenceMin then .reset
  else if v.density > densityMax then .clarify
  else if v.NeedsInvestigation then .investigate
  else .proceed

/-! ## CLI core (the unnamed source file): file-change oracle and synthesizer -/

/-- `checkFileChanged`: compares a stored git hash with the current file's hash.
The external `getFileGitHash` shell-out is the parameter `gitHash` (returns `""`
when the tool fails or the file is not in git, per its doc comment). -/
def checkFileChanged (gitHash : String → String) (filePath storedHash : String) : Bool :=
  if storedHash = "" ∨ filePath = "" then false
  else
    let currentHash := gitHash filePath
    if currentHash = "" then false
    else currentHash ≠ storedHash

/-- The per-finding `fileChanged` computation in the clarity loop of
`calculateEpistemicState` (false unless both subject and hash are set). -/
def findingFileChanged (gitHash : String → String) (f : Finding) : Bool :=
  match f.subject, f.subjectGitHash with
  | some subject, some hash => checkFileChanged gitHash subject hash
  | _, _ => false

/-- `getMoonPhase`: moon emoji for a confidence level. -/
noncomputable def getMoonPhase (confidence : ℝ) : String :=
  if confidence < 0.25 then "🌑"
  else if confidence < 0.50 then "🌒"
  else if confidence < 0.75 then "🌓"
  else if confidence < 0.90 then "🌔"
  else "🌕"

/-- `EpistemicState`: the derived state produced by `calculateEpistemicState`. -/
structure EpistemicState where
  know : ℝ
  uncertainty : ℝ
  clarity : ℝ
  coherence : ℝ
  completion : ℝ
  engagement : ℝ
  confidence : ℝ
  passesEngagementGate : Bool
  readyToProceed : Bool
  needsInvestigation : Bool
  recommendedAction : String
  moonPhase : String

/-- `calculateEpistemicState`: derives the epistemic state from breadcrumb data.
`sessionStart` and `now` are seconds; the source reads `now` via `time.Since`.
Each assignment mirrors one block of the source, in order. -/
noncomputable def calculateEpistemicState (gitHash : String → String)
    (findings : List Finding) (openUnknowns resolvedUnknowns : List Unknown)
    (deadEnds : List DeadEnd) (sessionStart now : ℝ) : EpistemicState :=
  -- Know: base 0.5 + findings × 0.1 + resolved × 0.15, capped at 1.0
  let know0 : ℝ := 0.5 + (findings.length : ℝ) * 0.1 + (resolvedUnknowns.length : ℝ) * 0.15
  let know := if know0 > 1.0 then 1.0 else know0
  -- Uncertainty: base 0.5 + open × 0.1 - resolved × 0.1, clamped to [0,1]
  let unc0 : ℝ := 0.5 + (openUnknowns.length : ℝ) * 0.1 - (resolvedUnknowns.length : ℝ) * 0.1
  let unc1 := if unc0 < 0 then 0 else unc0
  let uncertainty := if unc1 > 1.0 then 1.0 else unc1
  -- Clarity: ratio of fresh findings (neutral 0.5 when none)
  let freshCount : ℕ :=
    findings.countP (fun f => f.GetStalenessStatus now (findingFileChanged gitHash f) = .fresh)
  let clarity : ℝ :=
    if findings.length > 0 then (freshCount : ℝ) / (findings.length : ℝ) else 0.5
  -- Coherence: 1 - dead_ends / total_breadcrumbs (1.0 when nothing logged)
  let totalBreadcrumbs :=
    findings.length + openUnknowns.length + resolvedUnknowns.length + deadEnds.length
  let coherence : ℝ :=
    if totalBreadcrumbs > 0 then 1.0 - ((deadEnds.length : ℝ) / (totalBreadcrumbs : ℝ))
    else 1.0
  -- Completion: resolved / total unknowns (neutral 0.5 when none)
  let totalUnknowns := openUnknowns.length + resolvedUnknowns.length
  let completion : ℝ :=
    if totalUnknowns > 0 then (resolvedUnknowns.length : ℝ) / (totalUnknowns : ℝ) else 0.5
  -- Engagement: 2-hour half-life decay of session freshness, floored at 0.1
  let hoursSinceStart := (now - sessionStart) / (60 * 60)
  let engagement0 := Real.exp (-(Real.log 2 / 2.0) * hoursSinceStart)
  let engagement := if engagement0 < 0.1 then 0.1 else engagement0
  -- Overall confidence score, clamped to [0,1]
  let conf0 := know * 0.30 + clarity * 0.20 + coherence * 0.20 +
    completion * 0.15 + engagement * 0.15 - uncertainty * 0.15
  let conf1 := if conf0 < 0 then 0 else conf0
  let confidence := if conf1 > 1.0 then 1.0 else conf1
  -- Derived states
  let passesEngagementGate := decide (engagement ≥ 0.60)
  let readyToProceed := decide (know ≥ 0.50 ∧ uncertainty ≤ 0.50)
  let needsInvestigation := decide (know < 0.50 ∨ uncertainty > 0.50)
  -- Recommended action
  let recommendedAction :=
    if ¬ passesEngagementGate then "stop"
    else if coherence < 0.50 then "reset"
    else if clarity < 0.40 then "verify"
    else if needsInvestigation then "investigate"
    else "proceed"
  { know := know
    uncertainty := uncertainty
    clarity := clarity
    coherence := coherence
    completion := completion
    engagement := engagement
    confidence := confidence
    passesEngagementGate := passesEngagementGate
    readyToProceed := readyToProceed
    needsInvestigation := needsInvestigation
    recommendedAction := recommendedAction
    moonPhase := getMoonPhase confidence }

/-! ## internal/search/fuzzy.go : the fuzzy text matcher

The source works byte-wise on lower-cased Go strings; texts here are `List Char`
(the matcher's intended domain is ASCII, where the views coincide), scores are
exact rationals, and the `Highlights` index list — presentation-only data never
read by the scoring logic — is not modelled. -/

/-- The alphanumeric test the source applies to runes (`unicode.IsLetter(r) ||
unicode.IsDigit(r)`, restricted to ASCII). -/
def isAlnumRune (c : Char) : Bool :=
  c.isAlpha || c.isDigit

/-- Lower-casing a text, as `strings.ToLower` (ASCII). -/
def toLowerList (s : List Char) : List Char :=
  s.map Char.toLower

/-- `strings.TrimSpace`: drop leading and trailing whitespace. -/
def trimSpace (s : List Char) : List Char :=
  ((s.dropWhile Char.isWhitespace).reverse.dropWhile Char.isWhitespace).reverse

/-- `strings.Index`: position of the first occurrence of `pat` in `text`,
`none` when absent. -/
def strIndex (text pat : List Char) : Option ℕ :=
  if pat.isPrefixOf text then some 0
  else
    match text with
    | [] => none
    | _ :: rest => (strIndex rest pat).map (· + 1)

/-- Accumulator loop of `tokenize`: split into maximal alphanumeric runs. -/
def tokenizeAux : List Char → List Char → List (List Char)
  | [], current => if current.isEmpty then [] else [current.reverse]
  | c :: rest, current =>
    if isAlnumRune c then tokenizeAux rest (c :: current)
    else if current.isEmpty then tokenizeAux rest []
    else current.reverse :: tokenizeAux rest []

/-- `tokenize`: lower-case, then split into alphanumeric runs. -/
def tokenize (s : List Char) : List (List Char) :=
  tokenizeAux (toLowerList s) []

/-- `containsWord`: whether `text` contains `word` as a whole word.  Mirrors the
source exactly: only the FIRST occurrence's boundaries are examined. -/
def containsWord (text word : List Char) : Bool :=
  match strIndex text word with
  | none => false
  | some idx =>
    let beforeOk : Bool :=
      if idx > 0 then ¬ isAlnumRune (text.getD (idx - 1) ' ') else true
    let endIdx := idx + word.length
    let afterOk : Bool :=
      if endIdx < text.length then ¬ isAlnumRune (text.getD endIdx ' ') else true
    beforeOk && afterOk

/-- The scanning loop of `fuzzyContains`; `started` is the source's
`patternIdx > 0`, `gaps` its gap counter. -/
def fuzzyLoop (maxGaps : ℕ) : List Char → List Char → Bool → ℕ → Bool
  | _, [], _, _ => true
  | [], _ :: _, _, _ => false
  | c :: text, p :: ps, started, gaps =>
    if c = p then fuzzyLoop maxGaps text ps true 0
    else if started then
      if gaps + 1 > maxGaps then false
      else fuzzyLoop maxGaps text (p :: ps) started (gaps + 1)
    else fuzzyLoop maxGaps text (p :: ps) started gaps

/-- `fuzzyContains`: ordered-subsequence match with gap budget `len(pattern)`. -/
def fuzzyContains (text pat : List Char) : Bool :=
  if pat.length = 0 then true
  else if text.length = 0 then false
  else fuzzyLoop pat.length text pat false 0

/-- `SearchItem` from `fuzzy.go`. -/
structure SearchItem where
  id : String
  type : String
  text : String
  secondaryText : String
  scope : String
  deriving DecidableEq

/-- `SearchResult` from `fuzzy.go` (without the presentation-only highlights). -/
structure SearchResult where
  id : String
  type : String
  text : String
  secondaryText : String
  scope : String
  score : ℚ
  deriving DecidableEq

/-- `scoreToken`: the match ladder for one token — whole word 1.0, substring
0.7, fuzzy 0.4 on the primary text; 0.6/0.4/0.2 ceilings on the secondary text
and 0.3 on the scope, each raising the score only via max. -/
def scoreToken (token text secondary scope : List Char) : ℚ :=
  let score : ℚ :=
    if containsWord text token then 1.0
    else if (strIndex text token).isSome then 0.7
    else if fuzzyContains text token then 0.4
    else 0
  let score : ℚ :=
    if secondary ≠ [] then
      if containsWord secondary token then max score 0.6
      else if (strIndex secondary token).isSome then max score 0.4
      else if fuzzyContains secondary token then max score 0.2
      else score
    else score
  let score : ℚ :=
    if scope ≠ [] then
      if (strIndex scope token).isSome then max score 0.3
      else score
    else score
  score

/-- `scoreItem`: loop over the query tokens accumulating `totalScore` and
`matchedTokens`, then the partial-coverage penalty and the division by the
token count, exactly as in the source. -/
def scoreItem (queryTokens : List (List Char)) (item : SearchItem) : ℚ :=
  if queryTokens.length = 0 then 0
  else
    let textLower := toLowerList item.text.toList
    let secondaryLower := toLowerList item.secondaryText.toList
    let scopeLower := toLowerList item.scope.toList
    let acc := queryTokens.foldl (fun (acc : ℚ × ℕ) token =>
      let tokenScore := scoreToken token textLower secondaryLower scopeLower
      if tokenScore > 0 then (acc.1 + tokenScore, acc.2 + 1) else acc) (0, 0)
    let totalScore := acc.1
    let matchedTokens := acc.2
    let totalScore : ℚ :=
      if matchedTokens < queryTokens.length then
        totalScore * ((matchedTokens : ℚ) / (queryTokens.length : ℚ) * 0.5)
      else totalScore
    totalScore / (queryTokens.length : ℚ)

/-- `FuzzySearch`: score every item, keep those with `score >= threshold`,
sort by score descending.  The source's `sort.Slice` is unstable; a merge sort
realises the same "sorted by score descending" contract. -/
def FuzzySearch (query : String) (items : List SearchItem) (threshold : ℚ) :
    List SearchResult :=
  if query = "" then []
  else
    let queryTokens := tokenize (toLowerList (trimSpace query.toList))
    let results := items.filterMap (fun item =>
      let score := scoreItem queryTokens item
      if score ≥ threshold then
        some { id := item.id, type := item.type, text := item.text,
               secondaryText := item.secondaryText, scope := item.scope,
               score := score }
      else none)
    results.mergeSort (fun a b => decide (b.score ≤ a.score))

/-! ## internal/db/breadcrumb_repo.go : VerifyFinding

The single-table SQL UPDATE is modelled over a list of findings: the `SET`
clause applies to every row whose `id` matches, and zero affected rows is the
`sql.ErrNoRows` error. -/

/-- The effect of the UPDATE's SET clause on one matching row:
`last_verified_timestamp = now`, plus `subject_git_hash`/`finding` only when
the corresponding optional argument is present. -/
def applyVerify (now : ℝ) (newGitHash updatedText : Option String) (f : Finding) : Finding :=
  { f with
    lastVerifiedTimestamp := some now
    subjectGitHash :=
      match newGitHash with
      | some h => some h
      | none => f.subjectGitHash
    finding :=
      match updatedText with
      | some t => t
      | none => f.finding }

/-- `BreadcrumbRepository.VerifyFinding`: update the matching rows; if no row
matched, report `sql.ErrNoRows` and leave the store untouched. -/
def VerifyFinding (store : List Finding) (findingID : String)
    (newGitHash updatedText : Option String) (now : ℝ) : Except String (List Finding) :=
  let updated := store.map (fun f =>
    if f.id = findingID then applyVerify now newGitHash updatedText f else f)
  if store.any (fun f => f.id == findingID) then .ok updated
  else .error "sql: no rows in result set"

/-! ## Facts about the decay calculator -/

lemma log_two_pos : 0 < Real.log 2 :=
  Real.log_pos (by norm_num)

lemma exp_log_two : Real.exp (Real.log 2) = 2 :=
  Real.exp_log (by norm_num)

/-- At the base timestamp itself the decayed confidence is exactly 1. -/
lemma calculateConfidence_at_base (f : Finding) :
    f.CalculateConfidence f.baseTime = 1 := by
  simp [Finding.CalculateConfidence]

/-- Exactly 14 days after the base timestamp the decayed confidence is 1/2. -/
lemma calculateConfidence_at_half_life (f : Finding) :
    f.CalculateConfidence (f.baseTime + 14 * 86400) = 1 / 2 := by
  have h : -(Real.log 2 / DecayHalfLifeDays) *
      ((f.baseTime + 14 * 86400 - f.baseTime) / (24 * 60 * 60)) = -Real.log 2 := by
    rw [DecayHalfLifeDays]
    ring_nf
  rw [Finding.CalculateConfidence, h, Real.exp_neg, exp_log_two]
  norm_num

/-- The decayed confidence is strictly decreasing in `now` (equivalently, in
elapsed days since the base timestamp). -/
lemma calculateConfidence_strictAnti (f : Finding) {t1 t2 : ℝ} (h : t1 < t2) :
    f.CalculateConfidence t2 < f.CalculateConfidence t1 := by
  rw [Finding.CalculateConfidence, Finding.CalculateConfidence]
  apply Real.exp_lt_exp.mpr
  rw [DecayHalfLifeDays]
  have ha : (0:ℝ) < Real.log 2 / 14.0 := div_pos log_two_pos (by norm_num)
  have hS : (0:ℝ) < 24 * 60 * 60 := by norm_num
  have h1 : (t1 - f.baseTime) / (24 * 60 * 60 : ℝ) < (t2 - f.baseTime) / (24 * 60 * 60) := by
    apply div_lt_div_of_pos_right ?_ hS
    linarith
  exact mul_lt_mul_of_neg_left h1 (by linarith)

/-- The decayed confidence is always strictly positive. -/
lemma calculateConfidence_pos (f : Finding) (now : ℝ) :
    0 < f.CalculateConfidence now :=
  Real.exp_pos _

/-- C5: for fixed fileChanged, the decayed confidence is strictly decreasing in
elapsed time since the base timestamp; it equals 1.0 at zero elapsed time (now
equal to creation time, fileChanged false) and 0.5 at exactly 14 days. -/
theorem confidence_decay_profile (f : Finding) (fileChanged : Bool) (t1 t2 : ℝ) :
    (t1 < t2 → f.penalizedConfidence t2 fileChanged < f.penalizedConfidence t1 fileChanged) ∧
    (f.lastVerifiedTimestamp = none →
      f.CalculateConfidence f.createdTimestamp = 1 ∧
      f.penalizedConfidence f.createdTimestamp false = 1 ∧
      f.penalizedConfidence (f.createdTimestamp + 14 * 86400) false = 1 / 2) := by
  constructor
  · intro h
    have hmono := calculateConfidence_strictAnti f h
    cases fileChanged with
    | false => simpa [Finding.penalizedConfidence] using hmono
    | true =>
      simp only [Finding.penalizedConfidence, FileChangeConfidenceMultiplier, if_true]
      linarith
  · intro hb
    have hbase : f.baseTime = f.createdTimestamp := by rw [Finding.baseTime, hb]
    refine ⟨?_, ?_, ?_⟩
    · rw [← hbase]; exact calculateConfidence_at_base f
    · show f.CalculateConfidence f.createdTimestamp = 1
      rw [← hbase]; exact calculateConfidence_at_base f
    · show f.CalculateConfidence (f.createdTimestamp + 14 * 86400) = 1 / 2
      rw [← hbase]; exact calculateConfidence_at_half_life f

/-- Concrete finding used to witness the decay profile. -/
def decayFinding : Finding :=
  { id := "decay", projectID := "p", sessionID := "s", goalID := none, subtaskID := none,
    finding := "decay sample", createdTimestamp := 0, subject := none, impact := 0.5,
    lastVerifiedTimestamp := none, subjectGitHash := none }

/-- Witness for C5 at a concrete finding and concrete times 0 and 14 days. -/
theorem confidence_decay_profile_witness :
    ((0:ℝ) < 14 * 86400) ∧ decayFinding.lastVerifiedTimestamp = none ∧
    decayFinding.penalizedConfidence (14 * 86400) false <
      decayFinding.penalizedConfidence 0 false ∧
    decayFinding.CalculateConfidence decayFinding.createdTimestamp = 1 ∧
    decayFinding.penalizedConfidence (decayFinding.createdTimestamp + 14 * 86400) false = 1 / 2 := by
  refine ⟨by norm_num, rfl, ?_, ?_, ?_⟩
  · exact (confidence_decay_profile decayFinding false 0 (14 * 86400)).1 (by norm_num)
  · exact ((confidence_decay_profile decayFinding false 0 0).2 rfl).1
  · exact ((confidence_decay_profile decayFinding false 0 0).2 rfl).2.2

/-- Case analysis of the threshold ladder, for an arbitrary penalized value. -/
lemma staleness_tier_iff (s : StalenessStatus) (p : ℝ)
    (hs : s = (if p ≥ 0.70 then StalenessStatus.fresh
               else if p ≥ 0.40 then StalenessStatus.aging else StalenessStatus.stale)) :
    (s = .fresh ↔ 0.70 ≤ p) ∧ (s = .aging ↔ 0.40 ≤ p ∧ p < 0.70) ∧
      (s = .stale ↔ p < 0.40) := by
  subst hs
  split_ifs with h1 h2
  · exact ⟨⟨fun _ => h1, fun _ => rfl⟩,
      ⟨fun hcon => absurd hcon (by decide), fun hr => absurd h1 (not_le.mpr hr.2)⟩,
      ⟨fun hcon => absurd hcon (by decide), fun hr => absurd h1 (not_le.mpr (by linarith))⟩⟩
  · exact ⟨⟨fun hcon => absurd hcon (by decide), fun hr => absurd hr h1⟩,
      ⟨fun _ => ⟨h2, not_le.mp h1⟩, fun _ => rfl⟩,
      ⟨fun hcon => absurd hcon (by decide), fun hr => absurd h2 (not_le.mpr hr)⟩⟩
  · exact ⟨⟨fun hcon => absurd hcon (by decide), fun hr => absurd hr h1⟩,
      ⟨fun hcon => absurd hcon (by decide), fun hr => absurd hr.1 h2⟩,
      ⟨fun _ => not_le.mp h2, fun _ => rfl⟩⟩

/-- C3: the staleness tier is determined by multiplying the decayed confidence
by exactly 0.5 when fileChanged (unchanged otherwise), then applying inclusive
thresholds: fresh iff >= 0.70, aging iff in [0.40, 0.70), stale iff < 0.40. -/
theorem stalenessStatus_thresholds (f : Finding) (now : ℝ) (fileChanged : Bool) :
    (f.GetStalenessStatus now fileChanged = .fresh ↔
      0.70 ≤ f.CalculateConfidence now * (if fileChanged then 0.5 else 1)) ∧
    (f.GetStalenessStatus now fileChanged = .aging ↔
      0.40 ≤ f.CalculateConfidence now * (if fileChanged then 0.5 else 1) ∧
        f.CalculateConfidence now * (if fileChanged then 0.5 else 1) < 0.70) ∧
    (f.GetStalenessStatus now fileChanged = .stale ↔
      f.CalculateConfidence now * (if fileChanged then 0.5 else 1) < 0.40) := by
  have hpen : f.penalizedConfidence now fileChanged
      = f.CalculateConfidence now * (if fileChanged then 0.5 else 1) := by
    cases fileChanged <;>
      simp [Finding.penalizedConfidence, FileChangeConfidenceMultiplier]
  have hdef : f.GetStalenessStatus now fileChanged
      = (if f.penalizedConfidence now fileChanged ≥ 0.70 then StalenessStatus.fresh
         else if f.penalizedConfidence now fileChanged ≥ 0.40 then StalenessStatus.aging
         else StalenessStatus.stale) := rfl
  exact staleness_tier_iff _ _ (by rw [hdef, hpen])

/-- C1 evidence: a finding whose base timestamp lies 14 days in the future.
`CalculateConfidence` returns 2.0 — the code never clamps to 1.0, contradicting
its own doc comment "returns the time-decayed confidence (0.0-1.0)" — and the
tier is computed from the unclamped value (2.0 × 0.5 = 1.0 → fresh, where the
clamped value would give 1.0 × 0.5 = 0.5 → aging). -/
def futureFinding : Finding :=
  { id := "future", projectID := "p", sessionID := "s", goalID := none, subtaskID := none,
    finding := "clock skew", createdTimestamp := 14 * 86400, subject := some "main.go",
    impact := 0.5, lastVerifiedTimestamp := none, subjectGitHash := some "h" }

/-- C1: at a base timestamp 14 days in the future the computed confidence is
exactly 2 (total, nothing raises, but strictly above 1: no clamp is applied),
and the staleness tier is taken from the unclamped value. -/
theorem calculateConfidence_future_unclamped :
    futureFinding.CalculateConfidence 0 = 2 ∧
    1 < futureFinding.CalculateConfidence 0 ∧
    futureFinding.GetStalenessStatus 0 true = .fresh := by
  have hconf : futureFinding.CalculateConfidence 0 = 2 := by
    have h : -(Real.log 2 / DecayHalfLifeDays) *
        ((0 - futureFinding.baseTime) / (24 * 60 * 60)) = Real.log 2 := by
      have hb : futureFinding.baseTime = 14 * 86400 := rfl
      rw [hb, DecayHalfLifeDays]
      ring_nf
    rw [Finding.CalculateConfidence, h, exp_log_two]
  have hpen : futureFinding.penalizedConfidence 0 true = 1 := by
    rw [show futureFinding.penalizedConfidence 0 true
        = futureFinding.CalculateConfidence 0 * FileChangeConfidenceMultiplier from rfl,
      hconf, FileChangeConfidenceMultiplier]
    norm_num
  refine ⟨hconf, by rw [hconf]; norm_num, ?_⟩
  have hdef : futureFinding.GetStalenessStatus 0 true
      = (if futureFinding.penalizedConfidence 0 true ≥ 0.70 then StalenessStatus.fresh
         else if futureFinding.penalizedConfidence 0 true ≥ 0.40 then StalenessStatus.aging
         else StalenessStatus.stale) := rfl
  rw [hdef, hpen]
  norm_num

/-! ## Unfolding lemmas for the synthesizer's fields -/

lemma ces_know (g : String → String) (fs : List Finding) (os rs : List Unknown)
    (ds : List DeadEnd) (st now : ℝ) :
    (calculateEpistemicState g fs os rs ds st now).know =
      (if (0.5 + (fs.length : ℝ) * 0.1 + (rs.length : ℝ) * 0.15) > 1.0 then 1.0
       else 0.5 + (fs.length : ℝ) * 0.1 + (rs.length : ℝ) * 0.15) := rfl

lemma ces_uncertainty (g : String → String) (fs : List Finding) (os rs : List Unknown)
    (ds : List DeadEnd) (st now : ℝ) :
    (calculateEpistemicState g fs os rs ds st now).uncertainty =
      (let u0 : ℝ := 0.5 + (os.length : ℝ) * 0.1 - (rs.length : ℝ) * 0.1
       let u1 := if u0 < 0 then 0 else u0
       if u1 > 1.0 then 1.0 else u1) := rfl

lemma ces_clarity (g : String → String) (fs : List Finding) (os rs : List Unknown)
    (ds : List DeadEnd) (st now : ℝ) :
    (calculateEpistemicState g fs os rs ds st now).clarity =
      (if fs.length > 0 then
        ((fs.countP (fun f => f.GetStalenessStatus now (findingFileChanged g f) = .fresh) : ℕ) : ℝ)
          / (fs.length : ℝ)
       else 0.5) := rfl

lemma ces_coherence (g : String → String) (fs : List Finding) (os rs : List Unknown)
    (ds : List DeadEnd) (st now : ℝ) :
    (calculateEpistemicState g fs os rs ds st now).coherence =
      (if fs.length + os.length + rs.length + ds.length > 0 then
        1.0 - ((ds.length : ℝ) / ((fs.length + os.length + rs.length + ds.length : ℕ) : ℝ))
       else 1.0) := rfl

lemma ces_completion (g : String → String) (fs : List Finding) (os rs : List Unknown)
    (ds : List DeadEnd) (st now : ℝ) :
    (calculateEpistemicState g fs os rs ds st now).completion =
      (if os.length + rs.length > 0 then
        (rs.length : ℝ) / ((os.length + rs.length : ℕ) : ℝ)
       else 0.5) := rfl

lemma ces_engagement (g : String → String) (fs : List Finding) (os rs : List Unknown)
    (ds : List DeadEnd) (st now : ℝ) :
    (calculateEpistemicState g fs os rs ds st now).engagement =
      (if Real.exp (-(Real.log 2 / 2.0) * ((now - st) / (60 * 60))) < 0.1 then 0.1
       else Real.exp (-(Real.log 2 / 2.0) * ((now - st) / (60 * 60)))) := rfl

lemma ces_confidence (g : String → String) (fs : List Finding) (os rs : List Unknown)
    (ds : List DeadEnd) (st now : ℝ) :
    (calculateEpistemicState g fs os rs ds st now).confidence =
      (let s := calculateEpistemicState g fs os rs ds st now
       let c0 := s.know * 0.30 + s.clarity * 0.20 + s.coherence * 0.20 +
         s.completion * 0.15 + s.engagement * 0.15 - s.uncertainty * 0.15
       let c1 := if c0 < 0 then 0 else c0
       if c1 > 1.0 then 1.0 else c1) := rfl

lemma ces_gate (g : String → String) (fs : List Finding) (os rs : List Unknown)
    (ds : List DeadEnd) (st now : ℝ) :
    (calculateEpistemicState g fs os rs ds st now).passesEngagementGate =
      decide ((calculateEpistemicState g fs os rs ds st now).engagement ≥ 0.60) := rfl

lemma ces_needsInvestigation (g : String → String) (fs : List Finding) (os rs : List Unknown)
    (ds : List DeadEnd) (st now : ℝ) :
    (calculateEpistemicState g fs os rs ds st now).needsInvestigation =
      decide ((calculateEpistemicState g fs os rs ds st now).know < 0.50 ∨
        (calculateEpistemicState g fs os rs ds st now).uncertainty > 0.50) := rfl

lemma ces_action (g : String → String) (fs : List Finding) (os rs : List Unknown)
    (ds : List DeadEnd) (st now : ℝ) :
    (calculateEpistemicState g fs os rs ds st now).recommendedAction =
      (let s := calculateEpistemicState g fs os rs ds st now
       if ¬ s.passesEngagementGate then "stop"
       else if s.coherence < 0.50 then "reset"
       else if s.clarity < 0.40 then "verify"
       else if s.needsInvestigation then "investigate"
       else "proceed") := rfl

/-- Bounds for a ratio of the form `a / T`. -/
lemma div_mem_unit {a T : ℝ} (hT : 0 < T) (ha : 0 ≤ a) (haT : a ≤ T) :
    0 ≤ a / T ∧ a / T ≤ 1 :=
  ⟨div_nonneg ha hT.le, (div_le_one hT).mpr haT⟩

/-- Bounds for `1 - d / T`. -/
lemma one_sub_div_mem_unit {d T : ℝ} (hT : 0 < T) (hd : 0 ≤ d) (hdT : d ≤ T) :
    0 ≤ 1 - d / T ∧ 1 - d / T ≤ 1 := by
  have h1 : d / T ≤ 1 := (div_le_one hT).mpr hdT
  have h2 : 0 ≤ d / T := div_nonneg hd hT.le
  constructor <;> linarith

/-- C2 counterexample: with a session start 2 hours in the future (negative
elapsed time) the engagement field is 2, strictly above 1 — the floor at 0.1
is the only clamp the source applies to engagement. -/
theorem engagement_exceeds_one_for_future_start :
    (calculateEpistemicState (fun _ => "") [] [] [] [] 7200 0).engagement = 2 ∧
    1 < (calculateEpistemicState (fun _ => "") [] [] [] [] 7200 0).engagement := by
  have harg : -(Real.log 2 / 2.0) * (((0:ℝ) - 7200) / (60 * 60)) = Real.log 2 := by
    ring_nf
  have hexp : Real.exp (-(Real.log 2 / 2.0) * (((0:ℝ) - 7200) / (60 * 60))) = 2 := by
    rw [harg, exp_log_two]
  have he : (calculateEpistemicState (fun _ => "") [] [] [] [] 7200 0).engagement = 2 := by
    rw [ces_engagement, hexp]
    norm_num
  exact ⟨he, by rw [he]; norm_num⟩

/-- C2 (amended): whenever the session start time is not in the future
(`sessionStart ≤ now`), every field of the synthesized state — know,
uncertainty, clarity, coherence, completion, engagement and confidence — lies
in [0,1].  (With a future start, engagement alone can exceed 1.) -/
theorem epistemicState_fields_in_unit_interval (g : String → String) (fs : List Finding)
    (os rs : List Unknown) (ds : List DeadEnd) (st now : ℝ) (h : st ≤ now) :
    (0 ≤ (calculateEpistemicState g fs os rs ds st now).know ∧
      (calculateEpistemicState g fs os rs ds st now).know ≤ 1) ∧
    (0 ≤ (calculateEpistemicState g fs os rs ds st now).uncertainty ∧
      (calculateEpistemicState g fs os rs ds st now).uncertainty ≤ 1) ∧
    (0 ≤ (calculateEpistemicState g fs os rs ds st now).clarity ∧
      (calculateEpistemicState g fs os rs ds st now).clarity ≤ 1) ∧
    (0 ≤ (calculateEpistemicState g fs os rs ds st now).coherence ∧
      (calculateEpistemicState g fs os rs ds st now).coherence ≤ 1) ∧
    (0 ≤ (calculateEpistemicState g fs os rs ds st now).completion ∧
      (calculateEpistemicState g fs os rs ds st now).completion ≤ 1) ∧
    (0 ≤ (calculateEpistemicState g fs os rs ds st now).engagement ∧
      (calculateEpistemicState g fs os rs ds st now).engagement ≤ 1) ∧
    (0 ≤ (calculateEpistemicState g fs os rs ds st now).confidence ∧
      (calculateEpistemicState g fs os rs ds st now).confidence ≤ 1) := by
  refine ⟨?_, ?_, ?_, ?_, ?_, ?_, ?_⟩
  · rw [ces_know]
    split_ifs with h1
    · norm_num
    · push_neg at h1
      exact ⟨by positivity, by linarith⟩
  · rw [ces_uncertainty]
    dsimp only
    split_ifs <;> constructor <;> linarith
  · rw [ces_clarity]
    split_ifs with h1
    · have hc : fs.countP
          (fun f => f.GetStalenessStatus now (findingFileChanged g f) = .fresh) ≤ fs.length :=
        List.countP_le_length _
      exact div_mem_unit (by exact_mod_cast h1) (by positivity) (by exact_mod_cast hc)
    · norm_num
  · rw [ces_coherence]
    split_ifs with h1
    · have hT : (0:ℝ) < ((fs.length + os.length + rs.length + ds.length : ℕ) : ℝ) := by
        exact_mod_cast h1
      have hd : (ds.length : ℝ) ≤ ((fs.length + os.length + rs.length + ds.length : ℕ) : ℝ) := by
        exact_mod_cast Nat.le_add_left ds.length (fs.length + os.length + rs.length)
      have h2 : (ds.length : ℝ) / ((fs.length + os.length + rs.length + ds.length : ℕ) : ℝ) ≤ 1 :=
        (div_le_one hT).mpr hd
      have h3 : 0 ≤ (ds.length : ℝ) / ((fs.length + os.length + rs.length + ds.length : ℕ) : ℝ) :=
        div_nonneg (by positivity) hT.le
      constructor <;> linarith
    · norm_num
  · rw [ces_completion]
    split_ifs with h1
    · have hr : rs.length ≤ os.length + rs.length := Nat.le_add_left rs.length _
      exact div_mem_unit (by exact_mod_cast h1) (by positivity) (by exact_mod_cast hr)
    · norm_num
  · rw [ces_engagement]
    split_ifs with h1
    · norm_num
    · refine ⟨(Real.exp_pos _).le, ?_⟩
      have hexp_arg : -(Real.log 2 / 2.0) * ((now - st) / (60 * 60)) ≤ 0 := by
        have h0 : 0 ≤ Real.log 2 / 2.0 * ((now - st) / (60 * 60)) :=
          mul_nonneg (div_nonneg log_two_pos.le (by norm_num))
            (div_nonneg (by linarith) (by norm_num))
        linarith
      have hle := Real.exp_le_exp.mpr hexp_arg
      rwa [Real.exp_zero] at hle
  · rw [ces_confidence]
    dsimp only
    split_ifs <;> constructor <;> linarith

/-- Witness for C2's amended theorem at a concrete input (empty breadcrumbs,
session started exactly at `now`). -/
theorem epistemicState_fields_in_unit_interval_witness :
    ((0:ℝ) ≤ 0) ∧
    (0 ≤ (calculateEpistemicState (fun _ => "") [] [] [] [] 0 0).know ∧
      (calculateEpistemicState (fun _ => "") [] [] [] [] 0 0).know ≤ 1) ∧
    (0 ≤ (calculateEpistemicState (fun _ => "") [] [] [] [] 0 0).uncertainty ∧
      (calculateEpistemicState (fun _ => "") [] [] [] [] 0 0).uncertainty ≤ 1) ∧
    (0 ≤ (calculateEpistemicState (fun _ => "") [] [] [] [] 0 0).clarity ∧
      (calculateEpistemicState (fun _ => "") [] [] [] [] 0 0).clarity ≤ 1) ∧
    (0 ≤ (calculateEpistemicState (fun _ => "") [] [] [] [] 0 0).coherence ∧
      (calculateEpistemicState (fun _ => "") [] [] [] [] 0 0).coherence ≤ 1) ∧
    (0 ≤ (calculateEpistemicState (fun _ => "") [] [] [] [] 0 0).completion ∧
      (calculateEpistemicState (fun _ => "") [] [] [] [] 0 0).completion ≤ 1) ∧
    (0 ≤ (calculateEpistemicState (fun _ => "") [] [] [] [] 0 0).engagement ∧
      (calculateEpistemicState (fun _ => "") [] [] [] [] 0 0).engagement ≤ 1) ∧
    (0 ≤ (calculateEpistemicState (fun _ => "") [] [] [] [] 0 0).confidence ∧
      (calculateEpistemicState (fun _ => "") [] [] [] [] 0 0).confidence ≤ 1) :=
  ⟨le_refl 0, epistemicState_fields_in_unit_interval (fun _ => "") [] [] [] [] 0 0 (le_refl 0)⟩

/-- C10: the synthesizer's know value is always at least 0.5 (additive base
with non-negative contributions, capped at 1.0), so its needsInvestigation
flag holds exactly when uncertainty exceeds 0.50. -/
theorem know_floor_and_needsInvestigation (g : String → String) (fs : List Finding)
    (os rs : List Unknown) (ds : List DeadEnd) (st now : ℝ) :
    0.5 ≤ (calculateEpistemicState g fs os rs ds st now).know ∧
    ((calculateEpistemicState g fs os rs ds st now).needsInvestigation = true ↔
      0.50 < (calculateEpistemicState g fs os rs ds st now).uncertainty) := by
  have hknow : 0.5 ≤ (calculateEpistemicState g fs os rs ds st now).know := by
    rw [ces_know]
    split_ifs with h1
    · norm_num
    · have h0 : (0:ℝ) ≤ (fs.length : ℝ) * 0.1 := by positivity
      have h1 : (0:ℝ) ≤ (rs.length : ℝ) * 0.15 := by positivity
      linarith
  refine ⟨hknow, ?_⟩
  rw [ces_needsInvestigation]
  simp only [decide_eq_true_eq]
  constructor
  · rintro (hk | hu)
    · exact absurd hk (not_lt.mpr (by linarith))
    · exact hu
  · exact fun hu => Or.inr hu

/-- C4: in both recommendation paths, engagement below 0.60 always yields
stop, and otherwise the actions follow the strict priority order
reset (coherence < 0.50) → clarify (density > 0.90, vector model) /
verify (clarity < 0.40, synthesizer) → investigate (needsInvestigation) →
proceed. -/
theorem recommendedAction_priority :
    (∀ v : EpistemicVectors,
      (v.engagement < 0.60 → v.RecommendedAction = .stop) ∧
      (0.60 ≤ v.engagement → v.coherence < 0.50 → v.RecommendedAction = .reset) ∧
      (0.60 ≤ v.engagement → 0.50 ≤ v.coherence → 0.90 < v.density →
        v.RecommendedAction = .clarify) ∧
      (0.60 ≤ v.engagement → 0.50 ≤ v.coherence → v.density ≤ 0.90 →
        v.NeedsInvestigation → v.RecommendedAction = .investigate) ∧
      (0.60 ≤ v.engagement → 0.50 ≤ v.coherence → v.density ≤ 0.90 →
        ¬ v.NeedsInvestigation → v.RecommendedAction = .proceed)) ∧
    (∀ (g : String → String) (fs : List Finding) (os rs : List Unknown) (ds : List DeadEnd)
      (st now : ℝ),
      ((calculateEpistemicState g fs os rs ds st now).engagement < 0.60 →
        (calculateEpistemicState g fs os rs ds st now).recommendedAction = "stop") ∧
      (0.60 ≤ (calculateEpistemicState g fs os rs ds st now).engagement →
        (calculateEpistemicState g fs os rs ds st now).coherence < 0.50 →
        (calculateEpistemicState g fs os rs ds st now).recommendedAction = "reset") ∧
      (0.60 ≤ (calculateEpistemicState g fs os rs ds st now).engagement →
        0.50 ≤ (calculateEpistemicState g fs os rs ds st now).coherence →
        (calculateEpistemicState g fs os rs ds st now).clarity < 0.40 →
        (calculateEpistemicState g fs os rs ds st now).recommendedAction = "verify") ∧
      (0.60 ≤ (calculateEpistemicState g fs os rs ds st now).engagement →
        0.50 ≤ (calculateEpistemicState g fs os rs ds st now).coherence →
        0.40 ≤ (calculateEpistemicState g fs os rs ds st now).clarity →
        (calculateEpistemicState g fs os rs ds st now).needsInvestigation = true →
        (calculateEpistemicState g fs os rs ds st now).recommendedAction = "investigate") ∧
      (0.60 ≤ (calculateEpistemicState g fs os rs ds st now).engagement →
        0.50 ≤ (calculateEpistemicState g fs os rs ds st now).coherence →
        0.40 ≤ (calculateEpistemicState g fs os rs ds st now).clarity →
        (calculateEpistemicState g fs os rs ds st now).needsInvestigation = false →
        (calculateEpistemicState g fs os rs ds st now).recommendedAction = "proceed")) := by
  constructor
  · intro v
    refine ⟨fun hlt => ?_, fun hge hcoh => ?_, fun hge hcoh hden => ?_,
      fun hge hcoh hden hni => ?_, fun hge hcoh hden hni => ?_⟩
    · have hng : ¬ v.PassesEngagementGate := by
        rw [EpistemicVectors.PassesEngagementGate, EngagementThreshold]
        exact not_le.mpr hlt
      simp only [EpistemicVectors.RecommendedAction]
      rw [if_pos hng]
    · have hgate : v.PassesEngagementGate := by
        rw [EpistemicVectors.PassesEngagementGate, EngagementThreshold]
        exact hge
      have hc : v.coherence < coherenceMin := by rw [coherenceMin]; exact hcoh
      simp only [EpistemicVectors.RecommendedAction]
      rw [if_neg (not_not_intro hgate), if_pos hc]
    · have hgate : v.PassesEngagementGate := by
        rw [EpistemicVectors.PassesEngagementGate, EngagementThreshold]
        exact hge
      have hnc : ¬ v.coherence < coherenceMin := by rw [coherenceMin]; exact not_lt.mpr hcoh
      have hd : v.density > densityMax := by rw [densityMax]; exact hden
      simp only [EpistemicVectors.RecommendedAction]
      rw [if_neg (not_not_intro hgate), if_neg hnc, if_pos hd]
    · have hgate : v.PassesEngagementGate := by
        rw [EpistemicVectors.PassesEngagementGate, EngagementThreshold]
        exact hge
      have hnc : ¬ v.coherence < coherenceMin := by rw [coherenceMin]; exact not_lt.mpr hcoh
      have hnd : ¬ v.density > densityMax := by rw [densityMax]; exact not_lt.mpr hden
      simp only [EpistemicVectors.RecommendedAction]
      rw [if_neg (not_not_intro hgate), if_neg hnc, if_neg hnd, if_pos hni]
    · have hgate : v.PassesEngagementGate := by
        rw [EpistemicVectors.PassesEngagementGate, EngagementThreshold]
        exact hge
      have hnc : ¬ v.coherence < coherenceMin := by rw [coherenceMin]; exact not_lt.mpr hcoh
      have hnd : ¬ v.density > densityMax := by rw [densityMax]; exact not_lt.mpr hden
      simp only [EpistemicVectors.RecommendedAction]
      rw [if_neg (not_not_intro hgate), if_neg hnc, if_neg hnd, if_neg hni]
  · intro g fs os rs ds st now
    have haction := ces_action g fs os rs ds st now
    have hgate := ces_gate g fs os rs ds st now
    refine ⟨fun h1 => ?_, fun h1 h2 => ?_, fun h1 h2 h3 => ?_,
      fun h1 h2 h3 h4 => ?_, fun h1 h2 h3 h4 => ?_⟩
    · have hb : (calculateEpistemicState g fs os rs ds st now).passesEngagementGate = false := by
        rw [hgate]; exact decide_eq_false (not_le.mpr h1)
      rw [haction]
      dsimp only
      simp [hb]
    · have hb : (calculateEpistemicState g fs os rs ds st now).passesEngagementGate = true := by
        rw [hgate]; exact decide_eq_true h1
      rw [haction]
      dsimp only
      simp [hb, h2]
    · have hb : (calculateEpistemicState g fs os rs ds st now).passesEngagementGate = true := by
        rw [hgate]; exact decide_eq_true h1
      rw [haction]
      dsimp only
      simp [hb, not_lt.mpr h2, h3]
    · have hb : (calculateEpistemicState g fs os rs ds st now).passesEngagementGate = true := by
        rw [hgate]; exact decide_eq_true h1
      rw [haction]
      dsimp only
      simp [hb, not_lt.mpr h2, not_lt.mpr h3, h4]
    · have hb : (calculateEpistemicState g fs os rs ds st now).passesEngagementGate = true := by
        rw [hgate]; exact decide_eq_true h1
      rw [haction]
      dsimp only
      simp [hb, not_lt.mpr h2, not_lt.mpr h3, h4]

/-- A vector with every dimension at 0.5 — fails the engagement gate. -/
def stopVec : EpistemicVectors :=
  ⟨0.5, 0.5, 0.5, 0.5, 0.5, 0.5, 0.5, 0.5, 0.5, 0.5, 0.5, 0.5, 0.5⟩

lemma exp_twenty_hours_small :
    Real.exp (-(Real.log 2 / 2.0) * (((72000:ℝ) - 0) / (60 * 60))) < 0.1 := by
  have harg : -(Real.log 2 / 2.0) * (((72000:ℝ) - 0) / (60 * 60)) = -(10 * Real.log 2) := by
    ring
  have hlog : Real.log ((2:ℝ) ^ (10:ℕ)) = 10 * Real.log 2 := by
    rw [Real.log_pow]; push_cast; ring
  have hexp10 : Real.exp (10 * Real.log 2) = 1024 := by
    rw [← hlog, Real.exp_log (by positivity)]
    norm_num
  rw [harg, Real.exp_neg, hexp10]
  norm_num

/-- Witness for C4: a gate-failing vector and a gate-failing synthesized state
(session started 20 hours before now) both recommend stop. -/
theorem recommendedAction_priority_witness :
    stopVec.engagement < 0.60 ∧ stopVec.RecommendedAction = .stop ∧
    (calculateEpistemicState (fun _ => "") [] [] [] [] 0 72000).engagement < 0.60 ∧
    (calculateEpistemicState (fun _ => "") [] [] [] [] 0 72000).recommendedAction = "stop" := by
  have h1 : stopVec.engagement < 0.60 := by
    show (0.5:ℝ) < 0.60
    norm_num
  have h2 : (calculateEpistemicState (fun _ => "") [] [] [] [] 0 72000).engagement < 0.60 := by
    rw [ces_engagement]
    rw [if_pos exp_twenty_hours_small]
    norm_num
  exact ⟨h1, (recommendedAction_priority.1 stopVec).1 h1, h2,
    (recommendedAction_priority.2 (fun _ => "") [] [] [] [] 0 72000).1 h2⟩

/-! ## The end-to-end scenario of the spec's acceptance test -/

/-- A finding with only the scoring-relevant fields populated. -/
def mkFinding (i : String) (created : ℝ) : Finding :=
  { id := i, projectID := "p", sessionID := "s", goalID := none, subtaskID := none,
    finding := i, createdTimestamp := created, subject := none, impact := 0.5,
    lastVerifiedTimestamp := none, subjectGitHash := none }

/-- An unknown with only the scoring-relevant fields populated. -/
def mkUnknown (i : String) (resolved : Bool) : Unknown :=
  { id := i, projectID := "p", sessionID := "s", unknown := i, isResolved := resolved,
    resolvedBy := none, createdTimestamp := 0, resolvedTimestamp := none, impact := 0.5 }

/-- A dead end with only the scoring-relevant fields populated. -/
def mkDeadEnd (i : String) : DeadEnd :=
  { id := i, projectID := "p", sessionID := "s", approach := i, whyFailed := "w",
    createdTimestamp := 0, impact := 0.5 }

/-- A finding examined at its own creation instant tiers fresh. -/
lemma fresh_at_creation (i : String) (t : ℝ) :
    (mkFinding i t).GetStalenessStatus t false = .fresh := by
  have hconf : (mkFinding i t).CalculateConfidence t = 1 := by
    have hb : (mkFinding i t).baseTime = t := rfl
    rw [← hb]
    exact calculateConfidence_at_base _
  have hpen : (mkFinding i t).penalizedConfidence t false = 1 := by
    rw [show (mkFinding i t).penalizedConfidence t false
        = (mkFinding i t).CalculateConfidence t from rfl, hconf]
  have hdef : (mkFinding i t).GetStalenessStatus t false
      = (if (mkFinding i t).penalizedConfidence t false ≥ 0.70 then StalenessStatus.fresh
         else if (mkFinding i t).penalizedConfidence t false ≥ 0.40 then StalenessStatus.aging
         else StalenessStatus.stale) := rfl
  rw [hdef, hpen]
  norm_num

/-- A finding created 28 days ago (two half-lives: confidence 1/4) tiers stale
by time elapsed alone. -/
lemma stale_at_28_days (i : String) :
    (mkFinding i 0).GetStalenessStatus (28 * 86400) false = .stale := by
  have hconf : (mkFinding i 0).CalculateConfidence (28 * 86400) = 1 / 4 := by
    have harg : -(Real.log 2 / DecayHalfLifeDays) *
        (((28 * 86400 : ℝ) - (mkFinding i 0).baseTime) / (24 * 60 * 60))
        = -(2 * Real.log 2) := by
      have hb : (mkFinding i 0).baseTime = 0 := rfl
      rw [hb, DecayHalfLifeDays]
      ring
    have hexp4 : Real.exp (2 * Real.log 2) = 4 := by
      rw [show (2:ℝ) * Real.log 2 = Real.log ((2:ℝ) ^ (2:ℕ)) from by
        rw [Real.log_pow]; push_cast; ring]
      rw [Real.exp_log (by positivity)]
      norm_num
    rw [Finding.CalculateConfidence, harg, Real.exp_neg, hexp4]
    norm_num
  have hpen : (mkFinding i 0).penalizedConfidence (28 * 86400) false = 1 / 4 := by
    rw [show (mkFinding i 0).penalizedConfidence (28 * 86400) false
        = (mkFinding i 0).CalculateConfidence (28 * 86400) from rfl, hconf]
  have hdef : (mkFinding i 0).GetStalenessStatus (28 * 86400) false
      = (if (mkFinding i 0).penalizedConfidence (28 * 86400) false ≥ 0.70
          then StalenessStatus.fresh
         else if (mkFinding i 0).penalizedConfidence (28 * 86400) false ≥ 0.40
          then StalenessStatus.aging
         else StalenessStatus.stale) := rfl
  rw [hdef, hpen]
  norm_num

/-- One hour of engagement decay stays well above the 0.1 floor and the 0.60
gate: `exp(-ln 2 / 2) = 1/√2 ≈ 0.707 > 0.6`. -/
lemma exp_neg_half_log_two_gt : (0.6:ℝ) < Real.exp (-(Real.log 2 / 2)) := by
  have hsq : Real.exp (-(Real.log 2 / 2)) * Real.exp (-(Real.log 2 / 2)) = 1 / 2 := by
    rw [← Real.exp_add, show -(Real.log 2 / 2) + -(Real.log 2 / 2) = -Real.log 2 from by ring,
      Real.exp_neg, exp_log_two]
    norm_num
  have hpos := Real.exp_pos (-(Real.log 2 / 2))
  nlinarith [hsq, hpos]

/-- The spec's scenario: 3 findings (2 fresh, 1 stale by elapsed time alone). -/
def scenarioFindings : List Finding :=
  [mkFinding "f1" (28 * 86400), mkFinding "f2" (28 * 86400), mkFinding "f3" 0]

/-- The scenario's 2 open unknowns. -/
def scenarioOpen : List Unknown := [mkUnknown "u1" false, mkUnknown "u2" false]

/-- The scenario's 3 resolved unknowns. -/
def scenarioResolved : List Unknown :=
  [mkUnknown "r1" true, mkUnknown "r2" true, mkUnknown "r3" true]

/-- The scenario's 1 dead end. -/
def scenarioDeadEnds : List DeadEnd := [mkDeadEnd "d1"]

/-- The synthesized state for the scenario: session started exactly 1 hour
before `now = 28 days`. -/
noncomputable def scenarioState : EpistemicState :=
  calculateEpistemicState (fun _ => "") scenarioFindings scenarioOpen scenarioResolved
    scenarioDeadEnds (28 * 86400 - 3600) (28 * 86400)

/-- C6: on the spec's end-to-end scenario the synthesizer produces know = 1.0,
uncertainty = 0.4, coherence = 8/9, completion = 0.6,
engagement = exp(-ln 2 / 2), and recommends proceed. -/
theorem scenarioState_values :
    scenarioState.know = 1.0 ∧
    scenarioState.uncertainty = 0.4 ∧
    scenarioState.coherence = 8 / 9 ∧
    scenarioState.completion = 0.6 ∧
    scenarioState.engagement = Real.exp (-(Real.log 2 / 2)) ∧
    scenarioState.recommendedAction = "proceed" := by
  have hknow : scenarioState.know = 1.0 := by
    rw [scenarioState, ces_know]
    norm_num [scenarioFindings, scenarioResolved]
  have hunc : scenarioState.uncertainty = 0.4 := by
    rw [scenarioState, ces_uncertainty]
    norm_num [scenarioOpen, scenarioResolved]
  have hcoh : scenarioState.coherence = 8 / 9 := by
    rw [scenarioState, ces_coherence]
    norm_num [scenarioFindings, scenarioOpen, scenarioResolved, scenarioDeadEnds]
  have hcomp : scenarioState.completion = 0.6 := by
    rw [scenarioState, ces_completion]
    norm_num [scenarioOpen, scenarioResolved]
  have hp1 : (mkFinding "f1" (28 * 86400)).GetStalenessStatus (28 * 86400)
      (findingFileChanged (fun _ => "") (mkFinding "f1" (28 * 86400))) = .fresh := by
    rw [show findingFileChanged (fun _ => "") (mkFinding "f1" (28 * 86400)) = false from rfl]
    exact fresh_at_creation _ _
  have hp2 : (mkFinding "f2" (28 * 86400)).GetStalenessStatus (28 * 86400)
      (findingFileChanged (fun _ => "") (mkFinding "f2" (28 * 86400))) = .fresh := by
    rw [show findingFileChanged (fun _ => "") (mkFinding "f2" (28 * 86400)) = false from rfl]
    exact fresh_at_creation _ _
  have hp3 : (mkFinding "f3" 0).GetStalenessStatus (28 * 86400)
      (findingFileChanged (fun _ => "") (mkFinding "f3" 0)) = .stale := by
    rw [show findingFileChanged (fun _ => "") (mkFinding "f3" 0) = false from rfl]
    exact stale_at_28_days _
  have hclar : scenarioState.clarity = 2 / 3 := by
    rw [scenarioState, ces_clarity]
    have hcount : scenarioFindings.countP
        (fun f => f.GetStalenessStatus (28 * 86400)
          (findingFileChanged (fun _ => "") f) = .fresh) = 2 := by
      simp [scenarioFindings, List.countP_cons, hp1, hp2, hp3]
    rw [hcount]
    norm_num [scenarioFindings]
  have harg : -(Real.log 2 / 2.0) *
      (((28 * 86400 : ℝ) - (28 * 86400 - 3600)) / (60 * 60)) = -(Real.log 2 / 2) := by
    ring
  have heng : scenarioState.engagement = Real.exp (-(Real.log 2 / 2)) := by
    rw [scenarioState, ces_engagement, harg]
    rw [if_neg (not_lt.mpr (by linarith [exp_neg_half_log_two_gt]))]
  have hgate : scenarioState.passesEngagementGate = true := by
    rw [scenarioState, ces_gate]
    apply decide_eq_true
    show (0.60:ℝ) ≤ _
    rw [show (calculateEpistemicState (fun _ => "") scenarioFindings scenarioOpen
        scenarioResolved scenarioDeadEnds (28 * 86400 - 3600) (28 * 86400)).engagement
      = Real.exp (-(Real.log 2 / 2)) from heng]
    linarith [exp_neg_half_log_two_gt]
  have hni : scenarioState.needsInvestigation = false := by
    rw [scenarioState, ces_needsInvestigation]
    apply decide_eq_false
    rw [show (calculateEpistemicState (fun _ => "") scenarioFindings scenarioOpen
        scenarioResolved scenarioDeadEnds (28 * 86400 - 3600) (28 * 86400)).know
      = 1.0 from hknow,
      show (calculateEpistemicState (fun _ => "") scenarioFindings scenarioOpen
        scenarioResolved scenarioDeadEnds (28 * 86400 - 3600) (28 * 86400)).uncertainty
      = 0.4 from hunc]
    push_neg
    norm_num
  have haction : scenarioState.recommendedAction = "proceed" := by
    rw [scenarioState, ces_action]
    dsimp only
    rw [show (calculateEpistemicState (fun _ => "") scenarioFindings scenarioOpen
        scenarioResolved scenarioDeadEnds (28 * 86400 - 3600) (28 * 86400)).passesEngagementGate
      = true from hgate]
    rw [show (calculateEpistemicState (fun _ => "") scenarioFindings scenarioOpen
        scenarioResolved scenarioDeadEnds (28 * 86400 - 3600) (28 * 86400)).coherence
      = 8 / 9 from hcoh]
    rw [show (calculateEpistemicState (fun _ => "") scenarioFindings scenarioOpen
        scenarioResolved scenarioDeadEnds (28 * 86400 - 3600) (28 * 86400)).clarity
      = 2 / 3 from hclar]
    rw [show (calculateEpistemicState (fun _ => "") scenarioFindings scenarioOpen
        scenarioResolved scenarioDeadEnds (28 * 86400 - 3600) (28 * 86400)).needsInvestigation
      = false from hni]
    norm_num
  exact ⟨hknow, hunc, hcoh, hcomp, heng, haction⟩

/-- C8: the file-change check answers false whenever the oracle cannot decide
(empty recorded hash, empty path, or tool failure), and answers true exactly
when a recomputed hash exists and differs from the recorded one.  The check's
type — a total Bool, not an error-carrying result — reflects that no error is
ever surfaced to the caller. -/
theorem checkFileChanged_spec (gitHash : String → String) (path stored : String) :
    (stored = "" → checkFileChanged gitHash path stored = false) ∧
    (path = "" → checkFileChanged gitHash path stored = false) ∧
    (gitHash path = "" → checkFileChanged gitHash path stored = false) ∧
    (checkFileChanged gitHash path stored = true ↔
      stored ≠ "" ∧ path ≠ "" ∧ gitHash path ≠ "" ∧ gitHash path ≠ stored) := by
  refine ⟨?_, ?_, ?_, ?_⟩
  · intro h; simp [checkFileChanged, h]
  · intro h; simp [checkFileChanged, h]
  · intro h; simp [checkFileChanged, h]
  · constructor
    · intro h
      by_cases h1 : stored = ""
      · simp [checkFileChanged, h1] at h
      · by_cases h2 : path = ""
        · simp [checkFileChanged, h1, h2] at h
        · by_cases h3 : gitHash path = ""
          · simp [checkFileChanged, h1, h2, h3] at h
          · simp [checkFileChanged, h1, h2, h3] at h
            exact ⟨h1, h2, h3, h⟩
    · rintro ⟨h1, h2, h3, h4⟩
      simp [checkFileChanged, h1, h2, h3, h4]

/-- Witness for C8 at a concrete oracle: an empty recorded hash answers
"no change" even though the oracle would return a hash. -/
theorem checkFileChanged_spec_witness :
    (("" : String) = "") ∧ checkFileChanged (fun _ => "deadbeef") "main.go" "" = false :=
  ⟨rfl, (checkFileChanged_spec (fun _ => "deadbeef") "main.go" "").1 rfl⟩

/-! ## Facts about the fuzzy matcher -/

/-- Per-token scores are never negative: every rung of the ladder is a
non-negative constant and the secondary/scope adjustments only take maxima. -/
lemma scoreToken_nonneg (token text secondary scope : List Char) :
    0 ≤ scoreToken token text secondary scope := by
  unfold scoreToken
  dsimp only
  have hbase : (0:ℚ) ≤ (if containsWord text token then (1.0:ℚ)
      else if (strIndex text token).isSome then 0.7
      else if fuzzyContains text token then 0.4 else 0) := by
    split_ifs <;> norm_num
  generalize hs1 : (if containsWord text token then (1.0:ℚ)
      else if (strIndex text token).isSome then 0.7
      else if fuzzyContains text token then 0.4 else 0) = s1 at hbase ⊢
  have hstep2 : (0:ℚ) ≤ (if secondary ≠ [] then
        (if containsWord secondary token then max s1 0.6
         else if (strIndex secondary token).isSome then max s1 0.4
         else if fuzzyContains secondary token then max s1 0.2
         else s1)
      else s1) := by
    split_ifs <;> first
      | exact hbase
      | exact le_max_of_le_right (by norm_num)
  generalize hs2 : (if secondary ≠ [] then
        (if containsWord secondary token then max s1 0.6
         else if (strIndex secondary token).isSome then max s1 0.4
         else if fuzzyContains secondary token then max s1 0.2
         else s1)
      else s1) = s2 at hstep2 ⊢
  split_ifs <;> first
    | exact hstep2
    | exact le_max_of_le_right (by norm_num)

/-- The source's accumulation loop over query tokens equals the closed form:
sum of all per-token scores (scores that fail to match contribute 0) and count
of matched tokens. -/
lemma scoreItem_fold (f : List Char → ℚ) (hf : ∀ t, 0 ≤ f t) :
    ∀ (ts : List (List Char)) (a : ℚ) (n : ℕ),
      ts.foldl (fun acc t =>
          let s := f t
          if s > 0 then (acc.1 + s, acc.2 + 1) else acc) (a, n)
        = (a + (ts.map f).sum, n + ts.countP (fun t => decide (0 < f t))) := by
  intro ts
  induction ts with
  | nil => intro a n; simp
  | cons t ts ih =>
    intro a n
    rw [List.foldl_cons]
    dsimp only
    by_cases h : 0 < f t
    · rw [if_pos h, ih]
      have hd : decide (0 < f t) = true := decide_eq_true h
      simp only [List.map_cons, List.sum_cons, List.countP_cons, hd, Prod.mk.injEq]
      exact ⟨by ring, by simp; omega⟩
    · have hz : f t = 0 := le_antisymm (not_lt.mp h) (hf t)
      rw [if_neg h, ih]
      simp [List.countP_cons, h, hz]

/-- C7: the per-item score is the token-count average of the per-token scores,
with the sum first multiplied by (matchedTokens/totalTokens)·0.5 whenever some
token failed to match; search results all reach the threshold, stem from the
input items, and are sorted by score descending. -/
theorem fuzzySearch_spec :
    (∀ (queryTokens : List (List Char)) (item : SearchItem), queryTokens ≠ [] →
      scoreItem queryTokens item =
        (if (queryTokens.map (fun t => scoreToken t (toLowerList item.text.toList)
              (toLowerList item.secondaryText.toList)
              (toLowerList item.scope.toList))).countP (fun s => decide (0 < s))
            < queryTokens.length then
          (queryTokens.map (fun t => scoreToken t (toLowerList item.text.toList)
              (toLowerList item.secondaryText.toList)
              (toLowerList item.scope.toList))).sum *
            (((queryTokens.map (fun t => scoreToken t (toLowerList item.text.toList)
                (toLowerList item.secondaryText.toList)
                (toLowerList item.scope.toList))).countP (fun s => decide (0 < s)) : ℚ)
              / (queryTokens.length : ℚ) * 0.5)
         else
          (queryTokens.map (fun t => scoreToken t (toLowerList item.text.toList)
              (toLowerList item.secondaryText.toList)
              (toLowerList item.scope.toList))).sum) / (queryTokens.length : ℚ)) ∧
    (∀ (query : String) (items : List SearchItem) (threshold : ℚ) (r : SearchResult),
      r ∈ FuzzySearch query items threshold →
        threshold ≤ r.score ∧ ∃ item, item ∈ items ∧
          r.score = scoreItem (tokenize (toLowerList (trimSpace query.toList))) item) ∧
    (∀ (query : String) (items : List SearchItem) (threshold : ℚ),
      (FuzzySearch query items threshold).Pairwise (fun a b => b.score ≤ a.score)) := by
  refine ⟨?_, ?_, ?_⟩
  · intro qt item hne
    have hlen : ¬ qt.length = 0 := by simpa [List.length_eq_zero] using hne
    rw [scoreItem, if_neg hlen]
    dsimp only
    rw [scoreItem_fold
      (fun t => scoreToken t (toLowerList item.text.toList)
        (toLowerList item.secondaryText.toList) (toLowerList item.scope.toList))
      (fun t => scoreToken_nonneg t (toLowerList item.text.toList)
        (toLowerList item.secondaryText.toList) (toLowerList item.scope.toList)) qt 0 0]
    simp only [List.countP_map, Function.comp_def, zero_add]
  · intro query items threshold r hr
    rw [FuzzySearch] at hr
    split_ifs at hr with hq
    · simp at hr
    · rw [List.mem_mergeSort] at hr
      rw [List.mem_filterMap] at hr
      obtain ⟨item, hitem, heq⟩ := hr
      dsimp only at heq
      split_ifs at heq with hsc
      · injection heq with heq2
        subst heq2
        exact ⟨hsc, ⟨item, hitem, rfl⟩⟩
  · intro query items threshold
    rw [FuzzySearch]
    split_ifs with hq
    · exact List.Pairwise.nil
    · apply List.Pairwise.imp ?_
        (List.sorted_mergeSort
          (fun a b c hab hbc => by
            simp only [decide_eq_true_eq] at *
            exact le_trans hbc hab)
          (fun a b => by
            simpa [Bool.or_eq_true, decide_eq_true_eq] using le_total b.score a.score) _)
      intro a b hab
      simpa [decide_eq_true_eq] using hab

/-- Concrete item for the fuzzy witness: the spec's own acceptance example. -/
def itemJWT : SearchItem :=
  { id := "1", type := "finding", text := "Auth uses JWT tokens",
    secondaryText := "", scope := "" }

/-- Witness for C7 at the spec's example item and the single-token query
`jwt`: the per-item score equals the averaged per-token formula. -/
theorem fuzzySearch_spec_witness :
    ([['j','w','t']] : List (List Char)) ≠ [] ∧
    scoreItem [['j','w','t']] itemJWT =
      (if (([['j','w','t']] : List (List Char)).map
            (fun t => scoreToken t (toLowerList itemJWT.text.toList)
              (toLowerList itemJWT.secondaryText.toList)
              (toLowerList itemJWT.scope.toList))).countP (fun s => decide (0 < s))
          < ([['j','w','t']] : List (List Char)).length then
        (([['j','w','t']] : List (List Char)).map
            (fun t => scoreToken t (toLowerList itemJWT.text.toList)
              (toLowerList itemJWT.secondaryText.toList)
              (toLowerList itemJWT.scope.toList))).sum *
          (((([['j','w','t']] : List (List Char)).map
              (fun t => scoreToken t (toLowerList itemJWT.text.toList)
                (toLowerList itemJWT.secondaryText.toList)
                (toLowerList itemJWT.scope.toList))).countP (fun s => decide (0 < s)) : ℚ)
            / (([['j','w','t']] : List (List Char)).length : ℚ) * 0.5)
       else
        (([['j','w','t']] : List (List Char)).map
            (fun t => scoreToken t (toLowerList itemJWT.text.toList)
              (toLowerList itemJWT.secondaryText.toList)
              (toLowerList itemJWT.scope.toList))).sum)
        / (([['j','w','t']] : List (List Char)).length : ℚ) :=
  ⟨by decide, fuzzySearch_spec.1 [['j','w','t']] itemJWT (by decide)⟩

/-! ## Facts about VerifyFinding -/

/-- C9: a successful verification changes only the matching finding's
last-verified timestamp, subject hash and text — every other finding (and
hence its confidence computation at any time) is untouched, and all other
fields of the matching finding are preserved; an ID absent from the store
yields the not-found error and the would-be update is the identity. -/
theorem verifyFinding_frame (store : List Finding) (findingID : String)
    (newGitHash updatedText : Option String) (now : ℝ) :
    (∀ st', VerifyFinding store findingID newGitHash updatedText now = .ok st' →
      st'.length = store.length ∧
      ∀ (i : ℕ) (hi : i < store.length) (hi' : i < st'.length),
        ((store.get ⟨i, hi⟩).id ≠ findingID →
          st'.get ⟨i, hi'⟩ = store.get ⟨i, hi⟩ ∧
          ∀ t, (st'.get ⟨i, hi'⟩).CalculateConfidence t
            = (store.get ⟨i, hi⟩).CalculateConfidence t) ∧
        ((store.get ⟨i, hi⟩).id = findingID →
          (st'.get ⟨i, hi'⟩).lastVerifiedTimestamp = some now ∧
          (st'.get ⟨i, hi'⟩).subjectGitHash =
            (match newGitHash with
             | some h => some h
             | none => (store.get ⟨i, hi⟩).subjectGitHash) ∧
          (st'.get ⟨i, hi'⟩).finding =
            (match updatedText with
             | some t => t
             | none => (store.get ⟨i, hi⟩).finding) ∧
          (st'.get ⟨i, hi'⟩).id = (store.get ⟨i, hi⟩).id ∧
          (st'.get ⟨i, hi'⟩).projectID = (store.get ⟨i, hi⟩).projectID ∧
          (st'.get ⟨i, hi'⟩).sessionID = (store.get ⟨i, hi⟩).sessionID ∧
          (st'.get ⟨i, hi'⟩).goalID = (store.get ⟨i, hi⟩).goalID ∧
          (st'.get ⟨i, hi'⟩).subtaskID = (store.get ⟨i, hi⟩).subtaskID ∧
          (st'.get ⟨i, hi'⟩).createdTimestamp = (store.get ⟨i, hi⟩).createdTimestamp ∧
          (st'.get ⟨i, hi'⟩).subject = (store.get ⟨i, hi⟩).subject ∧
          (st'.get ⟨i, hi'⟩).impact = (store.get ⟨i, hi⟩).impact)) ∧
    ((∃ f ∈ store, f.id = findingID) →
      ∃ st', VerifyFinding store findingID newGitHash updatedText now = .ok st') ∧
    ((∀ f ∈ store, f.id ≠ findingID) →
      VerifyFinding store findingID newGitHash updatedText now
        = .error "sql: no rows in result set" ∧
      store.map (fun f =>
        if f.id = findingID then applyVerify now newGitHash updatedText f else f) = store) := by
  refine ⟨?_, ?_, ?_⟩
  · intro st' hok
    rw [VerifyFinding] at hok
    split_ifs at hok with hany
    · have hst : st' = store.map (fun f =>
          if f.id = findingID then applyVerify now newGitHash updatedText f else f) :=
        (Except.ok.inj hok).symm
      subst hst
      refine ⟨List.length_map _ _, ?_⟩
      intro i hi hi'
      have hget : (store.map (fun f =>
          if f.id = findingID then applyVerify now newGitHash updatedText f else f)).get ⟨i, hi'⟩
          = (fun f => if f.id = findingID then applyVerify now newGitHash updatedText f else f)
            (store.get ⟨i, hi⟩) := by
        simp
      constructor
      · intro hne
        have heq : (store.map (fun f =>
            if f.id = findingID then applyVerify now newGitHash updatedText f else f)).get ⟨i, hi'⟩
            = store.get ⟨i, hi⟩ := by
          rw [hget]
          dsimp only
          rw [if_neg hne]
        exact ⟨heq, fun t => by rw [heq]⟩
      · intro hid
        rw [hget]
        dsimp only
        rw [if_pos hid]
        cases newGitHash <;> cases updatedText <;>
          simp [applyVerify]
  · rintro ⟨f, hf, hid⟩
    rw [VerifyFinding]
    rw [if_pos]
    · exact ⟨_, rfl⟩
    · rw [List.any_eq_true]
      exact ⟨f, hf, by simpa using hid⟩
  · intro hnone
    have hany : store.any (fun f => f.id == findingID) = false := by
      rw [List.any_eq_false]
      intro f hf
      simpa using hnone f hf
    constructor
    · rw [VerifyFinding]
      rw [if_neg]
      simp [hany]
    · have hid : ∀ f ∈ store,
          (if f.id = findingID then applyVerify now newGitHash updatedText f else f) = f := by
        intro f hf
        rw [if_neg (hnone f hf)]
      calc store.map (fun f =>
            if f.id = findingID then applyVerify now newGitHash updatedText f else f)
          = store.map id := List.map_congr_left hid
        _ = store := List.map_id store

/-- Store entry "a" for the verification witness. -/
def fA : Finding :=
  { id := "a", projectID := "p", sessionID := "s", goalID := none, subtaskID := none,
    finding := "alpha", createdTimestamp := 0, subject := none, impact := 0.5,
    lastVerifiedTimestamp := none, subjectGitHash := none }

/-- Store entry "b" for the verification witness. -/
def fB : Finding :=
  { id := "b", projectID := "p", sessionID := "s", goalID := none, subtaskID := none,
    finding := "beta", createdTimestamp := 0, subject := none, impact := 0.5,
    lastVerifiedTimestamp := none, subjectGitHash := none }

/-- The store after verifying "a" at time 5. -/
def verifiedStore : List Finding := [applyVerify 5 none none fA, fB]

/-- Witness for C9: verifying "a" in the two-element store leaves the
non-matching finding "b" untouched. -/
theorem verifyFinding_frame_witness :
    VerifyFinding [fA, fB] "a" none none 5 = Except.ok verifiedStore ∧
    fB.id ≠ "a" ∧
    verifiedStore.get ⟨1, by decide⟩ = [fA, fB].get ⟨1, by decide⟩ := by
  refine ⟨rfl, by decide, ?_⟩
  have h := ((verifyFinding_frame [fA, fB] "a" none none 5).1 verifiedStore rfl).2 1
    (by decide) (by decide)
  exact (h.1 (by decide)).1

end Memory
